import Mathlib

/-!
Verification of the bridget resource-synchronization store
(src/core/frontend/src/store/bridget.ts) against its specification.

The store keeps two resource records (available bridges, available serial
ports), refreshed by periodic sync cycles.  Each cycle is embedded as the
exact sequence of primitive steps the source performs (state mutations,
the transport call, notification pushes), so that properties about *when*
a mutation happens, how many transport calls are issued, and what
notifications are emitted can all be stated over the step trace, and the
resulting state is obtained by folding the mutations.
-/

namespace Bridget

/-- A bridge record returned by the backend.  Its internal shape is opaque
to the store (the payload is committed verbatim), so a single string field
is enough to distinguish payloads. -/
structure Bridge where
  payload : String
deriving DecidableEq, Repr

/-- The mutable fields of the `BridgetStore` Vuex module, with the source's
field names (including the source's `prefeteched_serial_ports` spelling). -/
structure BridgetState where
  available_bridges : List Bridge
  available_serial_ports : List String
  should_fetch : Bool
  updating_bridges : Bool
  updating_serial_ports : Bool
  prefetched_bridges : Bool
  prefeteched_serial_ports : Bool
deriving DecidableEq, Repr

/-- Field initializers of `BridgetStore`: empty item lists, `should_fetch`
false, both `updating_*` true, both prefetched flags false. -/
def initialState : BridgetState :=
  { available_bridges := []
    available_serial_ports := []
    should_fetch := false
    updating_bridges := true
    updating_serial_ports := true
    prefetched_bridges := false
    prefeteched_serial_ports := false }

/-- Mutation `setUpdatingBridges`. -/
def setUpdatingBridges (updating : Bool) (s : BridgetState) : BridgetState :=
  { s with updating_bridges := updating }

/-- Mutation `setUpdatingSerialPorts`. -/
def setUpdatingSerialPorts (updating : Bool) (s : BridgetState) : BridgetState :=
  { s with updating_serial_ports := updating }

/-- Mutation `setPrefetchedBridges`. -/
def setPrefetchedBridges (prefetched : Bool) (s : BridgetState) : BridgetState :=
  { s with prefetched_bridges := prefetched }

/-- Mutation `setPrefetchedSerialPorts`. -/
def setPrefetchedSerialPorts (prefetched : Bool) (s : BridgetState) : BridgetState :=
  { s with prefeteched_serial_ports := prefetched }

/-- Mutation `setAvailableBridges`: stores the list and sets
`updating_bridges` to false. -/
def setAvailableBridges (available_bridges : List Bridge) (s : BridgetState) : BridgetState :=
  { s with available_bridges := available_bridges, updating_bridges := false }

/-- Mutation `setAvailableSerialPorts`.  The source body is
`this.available_serial_ports = available_serial_ports;
this.updating_bridges = false` — it writes `updating_bridges`, not
`updating_serial_ports`; the embedding keeps that behaviour. -/
def setAvailableSerialPorts (available_serial_ports : List String) (s : BridgetState) : BridgetState :=
  { s with available_serial_ports := available_serial_ports, updating_bridges := false }

/-- Mutation `startFetching`. -/
def startFetching (s : BridgetState) : BridgetState :=
  { s with should_fetch := true }

/-- Mutation `stopFetching`. -/
def stopFetching (s : BridgetState) : BridgetState :=
  { s with should_fetch := false }

/-- Kinds of transport failure distinguished by the specification's error
taxonomy. -/
inductive ErrorKind
  | offline
  | timeout
  | httpStatus
  | malformedPayload
deriving DecidableEq, Repr

/-- A failure raised by the transport layer, as observed by the catch
handler.  `isOfflineSingleton` records whether the JavaScript value is
reference-identical (`===`) to the module-level `backend_offline_error`
singleton; `kind` records which condition the failure actually stands
for.  A wrapped or cloned offline failure has `kind = offline` but
`isOfflineSingleton = false`. -/
structure TransportError where
  kind : ErrorKind
  isOfflineSingleton : Bool
  message : String
deriving DecidableEq, Repr

/-- Modelled from the spec: the distinguished offline sentinel raised by
the transport utility (`backend_offline_error` in `utils/api`, whose
definition is outside the given sources).  It is the unique value that is
reference-identical to itself, and it stands for the offline condition. -/
def backend_offline_error : TransportError :=
  { kind := ErrorKind.offline, isOfflineSingleton := true, message := "backend is offline" }

/-- A transport error is well formed when the only value claiming
reference identity with the offline sentinel is the sentinel itself. -/
def WellFormedError (e : TransportError) : Prop :=
  e.isOfflineSingleton = true → e = backend_offline_error

instance (e : TransportError) : Decidable (WellFormedError e) := by
  unfold WellFormedError
  infer_instance

/-- The source's offline test, `error === backend_offline_error`:
reference identity against the singleton. -/
def errorIsBackendOfflineError (e : TransportError) : Bool :=
  e.isOfflineSingleton

/-- The two classes the specification's error classifier maps into. -/
inductive Classification
  | Offline
  | Other
deriving DecidableEq, Repr

/-- The classifier as the source implements it: a failure is `Offline`
exactly when it is reference-identical to the offline sentinel. -/
def classify (e : TransportError) : Classification :=
  if errorIsBackendOfflineError e then Classification.Offline else Classification.Other

/-- The classifier as the specification words it: classification by the
failure's kind, so a wrapped or cloned offline failure is still
`Offline`.  Stated for comparison with `classify`. -/
def classifyByKind (e : TransportError) : Classification :=
  if e.kind = ErrorKind.offline then Classification.Offline else Classification.Other

/-- Outcome of the transport call for one cycle: either a well-formed
response body, or a raised failure. -/
inductive FetchOutcome (α : Type)
  | success (data : α)
  | failure (error : TransportError)
deriving DecidableEq, Repr

/-- A structured failure report pushed to the notification sink. -/
structure Notification where
  service : String
  type : String
  message : String
deriving DecidableEq, Repr

/-- Modelled from the spec: the service tag `bridget_service` from
`types/frontend_services` (outside the given sources); an opaque
identifier for the bridget service. -/
def bridget_service : String :=
  "bridget"

/-- The base URL constant `API_URL` of the store. -/
def API_URL : String :=
  "/bridget/v1.0"

/-- One named store mutation together with its argument, as invoked by a
sync cycle. -/
inductive Mut
  | mSetUpdatingBridges (b : Bool)
  | mSetUpdatingSerialPorts (b : Bool)
  | mSetPrefetchedBridges (b : Bool)
  | mSetPrefetchedSerialPorts (b : Bool)
  | mSetAvailableBridges (l : List Bridge)
  | mSetAvailableSerialPorts (l : List String)
deriving DecidableEq, Repr

/-- Dispatch a mutation to its definition. -/
def applyMut (m : Mut) (s : BridgetState) : BridgetState :=
  match m with
  | Mut.mSetUpdatingBridges b => setUpdatingBridges b s
  | Mut.mSetUpdatingSerialPorts b => setUpdatingSerialPorts b s
  | Mut.mSetPrefetchedBridges b => setPrefetchedBridges b s
  | Mut.mSetPrefetchedSerialPorts b => setPrefetchedSerialPorts b s
  | Mut.mSetAvailableBridges l => setAvailableBridges l s
  | Mut.mSetAvailableSerialPorts l => setAvailableSerialPorts l s

/-- A primitive step a sync cycle performs, in source order: commit a
store mutation, issue the HTTP request, or push a notification. -/
inductive Step
  | mut (m : Mut)
  | transport (url : String)
  | notify (n : Notification)
deriving DecidableEq, Repr

/-- Whether a step is the transport call. -/
def Step.isTransport : Step → Bool
  | Step.transport _ => true
  | _ => false

/-- Whether a step sets an `updating_*` field to true (the spec's
`markUpdating`). -/
def Step.setsUpdatingTrue : Step → Bool
  | Step.mut (Mut.mSetUpdatingBridges true) => true
  | Step.mut (Mut.mSetUpdatingSerialPorts true) => true
  | _ => false

/-- Run a step trace: fold the mutations through the state and collect the
pushed notifications in order. -/
def runSteps (s : BridgetState) : List Step → BridgetState × List Notification
  | [] => (s, [])
  | Step.mut m :: rest => runSteps (applyMut m s) rest
  | Step.transport _ :: rest => runSteps s rest
  | Step.notify n :: rest =>
      let r := runSteps s rest
      (r.1, n :: r.2)

/-- Number of transport calls a step trace issues. -/
def transportCalls (steps : List Step) : Nat :=
  steps.countP Step.isTransport

/-- The skip check of `fetchAvailableBridges`: the cycle proceeds unless
`prefetched_bridges` holds and `should_fetch` does not. -/
def bridgesGuardPasses (s : BridgetState) : Bool :=
  !(s.prefetched_bridges && !s.should_fetch)

/-- The skip check of `fetchAvailableSerialPorts`. -/
def serialPortsGuardPasses (s : BridgetState) : Bool :=
  !(s.prefeteched_serial_ports && !s.should_fetch)

/-- The `.then`/`.catch`/`.finally` handler chain of
`fetchAvailableBridges`, as the step sequence run once the request
resolves: on success commit the payload, mark prefetched, then the
`finally` clears `updating_bridges`; on failure clear the list, and unless
the error is the offline sentinel push one `BRIDGES_FETCH_FAIL`
notification, then the `finally` runs. -/
def bridgesHandlerSteps (o : FetchOutcome (List Bridge)) : List Step :=
  match o with
  | FetchOutcome.success data =>
      [Step.mut (Mut.mSetAvailableBridges data),
       Step.mut (Mut.mSetPrefetchedBridges true),
       Step.mut (Mut.mSetUpdatingBridges false)]
  | FetchOutcome.failure e =>
      if errorIsBackendOfflineError e then
        [Step.mut (Mut.mSetAvailableBridges []),
         Step.mut (Mut.mSetUpdatingBridges false)]
      else
        [Step.mut (Mut.mSetAvailableBridges []),
         Step.notify
           { service := bridget_service
             type := "BRIDGES_FETCH_FAIL"
             message := "Could not fetch available bridges: " ++ e.message },
         Step.mut (Mut.mSetUpdatingBridges false)]

/-- The handler chain of `fetchAvailableSerialPorts`, analogous, with the
`BRIDGET_SERIAL_PORTS_FETCH_FAIL` tag and the `finally` clearing
`updating_serial_ports`. -/
def serialPortsHandlerSteps (o : FetchOutcome (List String)) : List Step :=
  match o with
  | FetchOutcome.success data =>
      [Step.mut (Mut.mSetAvailableSerialPorts data),
       Step.mut (Mut.mSetPrefetchedSerialPorts true),
       Step.mut (Mut.mSetUpdatingSerialPorts false)]
  | FetchOutcome.failure e =>
      if errorIsBackendOfflineError e then
        [Step.mut (Mut.mSetAvailableSerialPorts []),
         Step.mut (Mut.mSetUpdatingSerialPorts false)]
      else
        [Step.mut (Mut.mSetAvailableSerialPorts []),
         Step.notify
           { service := bridget_service
             type := "BRIDGET_SERIAL_PORTS_FETCH_FAIL"
             message := "Could not fetch available serial ports: " ++ e.message },
         Step.mut (Mut.mSetUpdatingSerialPorts false)]

/-- The synchronous part of a bridges cycle: evaluate the skip check
against the current state and, if it passes, issue the request.  In the
source this runs to completion before any handler of any cycle runs. -/
def bridgesRequestPhase (s : BridgetState) : List Step :=
  if bridgesGuardPasses s then [Step.transport (API_URL ++ "/bridges")] else []

/-- The synchronous part of a serial-ports cycle. -/
def serialPortsRequestPhase (s : BridgetState) : List Step :=
  if serialPortsGuardPasses s then [Step.transport (API_URL ++ "/serial_ports")] else []

/-- The handler part of a bridges cycle: runs only if the request was
issued. -/
def bridgesResolutionPhase (s : BridgetState) (o : FetchOutcome (List Bridge)) : List Step :=
  if bridgesGuardPasses s then bridgesHandlerSteps o else []

/-- The handler part of a serial-ports cycle. -/
def serialPortsResolutionPhase (s : BridgetState) (o : FetchOutcome (List String)) : List Step :=
  if serialPortsGuardPasses s then serialPortsHandlerSteps o else []

/-- The full step trace of one `fetchAvailableBridges` cycle whose
transport call resolves with outcome `o`. -/
def fetchAvailableBridgesSteps (s : BridgetState) (o : FetchOutcome (List Bridge)) : List Step :=
  bridgesRequestPhase s ++ bridgesResolutionPhase s o

/-- The full step trace of one `fetchAvailableSerialPorts` cycle. -/
def fetchAvailableSerialPortsSteps (s : BridgetState) (o : FetchOutcome (List String)) : List Step :=
  serialPortsRequestPhase s ++ serialPortsResolutionPhase s o

/-- Run one `fetchAvailableBridges` cycle: final state and the
notifications pushed. -/
def fetchAvailableBridges (s : BridgetState) (o : FetchOutcome (List Bridge)) :
    BridgetState × List Notification :=
  runSteps s (fetchAvailableBridgesSteps s o)

/-- Run one `fetchAvailableSerialPorts` cycle. -/
def fetchAvailableSerialPorts (s : BridgetState) (o : FetchOutcome (List String)) :
    BridgetState × List Notification :=
  runSteps s (fetchAvailableSerialPortsSteps s o)

/-- Two ticks of the same resource type overlapping: both skip checks and
both requests run against the state before either response arrives (the
action body up to the request is synchronous), then the two handler chains
run in order.  Bridges version. -/
def overlappedBridgesTicksSteps (s : BridgetState)
    (o1 o2 : FetchOutcome (List Bridge)) : List Step :=
  bridgesRequestPhase s ++ bridgesRequestPhase s ++
    bridgesResolutionPhase s o1 ++ bridgesResolutionPhase s o2

/-- Two overlapping serial-ports ticks. -/
def overlappedSerialPortsTicksSteps (s : BridgetState)
    (o1 o2 : FetchOutcome (List String)) : List Step :=
  serialPortsRequestPhase s ++ serialPortsRequestPhase s ++
    serialPortsResolutionPhase s o1 ++ serialPortsResolutionPhase s o2

/-- One scheduled cycle of either resource type with its outcome, for
reasoning about interleaved histories. -/
inductive CycleEvent
  | bridges (o : FetchOutcome (List Bridge))
  | serialPorts (o : FetchOutcome (List String))
deriving DecidableEq, Repr

/-- Run one cycle event, keeping only the state. -/
def runCycleEvent (s : BridgetState) (e : CycleEvent) : BridgetState :=
  match e with
  | CycleEvent.bridges o => (fetchAvailableBridges s o).1
  | CycleEvent.serialPorts o => (fetchAvailableSerialPorts s o).1

/-- Run a sequence of cycle events in order. -/
def runCycleEvents (s : BridgetState) (es : List CycleEvent) : BridgetState :=
  es.foldl runCycleEvent s

/-! Helper lemmas shared by the claim theorems. -/

theorem transportCalls_append (a b : List Step) :
    transportCalls (a ++ b) = transportCalls a + transportCalls b :=
  List.countP_append _ _ _

theorem bridgesHandlerSteps_no_transport (o : FetchOutcome (List Bridge)) :
    transportCalls (bridgesHandlerSteps o) = 0 := by
  rcases o with d | e
  · rfl
  · unfold bridgesHandlerSteps
    cases h : errorIsBackendOfflineError e <;> simp only [h, Bool.false_eq_true, if_false, if_true] <;> rfl

theorem serialPortsHandlerSteps_no_transport (o : FetchOutcome (List String)) :
    transportCalls (serialPortsHandlerSteps o) = 0 := by
  rcases o with d | e
  · rfl
  · unfold serialPortsHandlerSteps
    cases h : errorIsBackendOfflineError e <;> simp only [h, Bool.false_eq_true, if_false, if_true] <;> rfl

theorem not_offline_kind_not_singleton (e : TransportError)
    (hk : e.kind ≠ ErrorKind.offline) (hw : WellFormedError e) :
    errorIsBackendOfflineError e = false := by
  unfold errorIsBackendOfflineError
  cases h : e.isOfflineSingleton
  · rfl
  · exact absurd (congrArg TransportError.kind (hw h)) hk

/-- C1: for every resource type (bridges, serial ports), a cycle that
proceeds past the skip check and whose transport call succeeds with a
well-formed response ends with the items equal to the parsed payload, the
warmed (prefetched) flag true, and the updating flag false. -/
theorem successfulCycleCommitsPayload (s : BridgetState)
    (bs : List Bridge) (ports : List String)
    (hb : bridgesGuardPasses s = true) (hp : serialPortsGuardPasses s = true) :
    ((fetchAvailableBridges s (FetchOutcome.success bs)).1.available_bridges = bs
      ∧ (fetchAvailableBridges s (FetchOutcome.success bs)).1.prefetched_bridges = true
      ∧ (fetchAvailableBridges s (FetchOutcome.success bs)).1.updating_bridges = false)
    ∧ ((fetchAvailableSerialPorts s (FetchOutcome.success ports)).1.available_serial_ports = ports
      ∧ (fetchAvailableSerialPorts s (FetchOutcome.success ports)).1.prefeteched_serial_ports = true
      ∧ (fetchAvailableSerialPorts s (FetchOutcome.success ports)).1.updating_serial_ports = false) := by
  simp [fetchAvailableBridges, fetchAvailableSerialPorts, fetchAvailableBridgesSteps,
    fetchAvailableSerialPortsSteps, bridgesRequestPhase, serialPortsRequestPhase,
    bridgesResolutionPhase, serialPortsResolutionPhase, hb, hp, bridgesHandlerSteps,
    serialPortsHandlerSteps, runSteps, applyMut, setAvailableBridges, setAvailableSerialPorts,
    setPrefetchedBridges, setPrefetchedSerialPorts, setUpdatingBridges, setUpdatingSerialPorts]

/-- C1 witness: the first cycles from the initial state, succeeding with a
one-bridge payload and a one-port payload, commit those payloads. -/
theorem successfulCycleCommitsPayload_witness :
    (fetchAvailableBridges initialState (FetchOutcome.success [Bridge.mk "b1"])).1.available_bridges
        = [Bridge.mk "b1"]
      ∧ (fetchAvailableSerialPorts initialState
          (FetchOutcome.success ["ttyUSB0"])).1.prefeteched_serial_ports = true :=
  ⟨(successfulCycleCommitsPayload initialState [Bridge.mk "b1"] ["ttyUSB0"] rfl rfl).1.1,
   (successfulCycleCommitsPayload initialState [Bridge.mk "b1"] ["ttyUSB0"] rfl rfl).2.2.1⟩

/-- C2: for every resource type, if the warmed flag is set and the force
flag `should_fetch` is clear, a cycle issues zero transport calls and
returns the state unchanged with no notifications; and if `should_fetch`
is set, a cycle issues exactly one transport call regardless of the
warmed flag. -/
theorem warmSkipAndForceRefresh (s : BridgetState)
    (ob : FetchOutcome (List Bridge)) (op : FetchOutcome (List String)) :
    ((s.prefetched_bridges = true → s.should_fetch = false →
        transportCalls (fetchAvailableBridgesSteps s ob) = 0
        ∧ fetchAvailableBridges s ob = (s, []))
      ∧ (s.prefeteched_serial_ports = true → s.should_fetch = false →
        transportCalls (fetchAvailableSerialPortsSteps s op) = 0
        ∧ fetchAvailableSerialPorts s op = (s, [])))
    ∧ ((s.should_fetch = true → transportCalls (fetchAvailableBridgesSteps s ob) = 1)
      ∧ (s.should_fetch = true → transportCalls (fetchAvailableSerialPortsSteps s op) = 1)) := by
  refine ⟨⟨fun h1 h2 => ?_, fun h1 h2 => ?_⟩, fun h => ?_, fun h => ?_⟩
  · simp [fetchAvailableBridgesSteps, bridgesRequestPhase, bridgesResolutionPhase,
      bridgesGuardPasses, h1, h2, transportCalls, runSteps, fetchAvailableBridges]
  · simp [fetchAvailableSerialPortsSteps, serialPortsRequestPhase, serialPortsResolutionPhase,
      serialPortsGuardPasses, h1, h2, transportCalls, runSteps, fetchAvailableSerialPorts]
  · have hg : bridgesGuardPasses s = true := by simp [bridgesGuardPasses, h]
    simp only [fetchAvailableBridgesSteps, transportCalls_append, bridgesRequestPhase,
      bridgesResolutionPhase, hg, if_true, bridgesHandlerSteps_no_transport]
    rfl
  · have hg : serialPortsGuardPasses s = true := by simp [serialPortsGuardPasses, h]
    simp only [fetchAvailableSerialPortsSteps, transportCalls_append, serialPortsRequestPhase,
      serialPortsResolutionPhase, hg, if_true, serialPortsHandlerSteps_no_transport]
    rfl

/-- C2 witness: in a fully warmed state with the force flag clear, a
bridges cycle makes no transport call; with the force flag set from the
initial state, a bridges cycle makes exactly one. -/
theorem warmSkipAndForceRefresh_witness :
    transportCalls (fetchAvailableBridgesSteps
        { available_bridges := [], available_serial_ports := [], should_fetch := false,
          updating_bridges := false, updating_serial_ports := false,
          prefetched_bridges := true, prefeteched_serial_ports := true }
        (FetchOutcome.success [])) = 0
      ∧ transportCalls (fetchAvailableBridgesSteps (startFetching initialState)
          (FetchOutcome.success [])) = 1 :=
  ⟨((warmSkipAndForceRefresh _ (FetchOutcome.success []) (FetchOutcome.success [])).1.1
      rfl rfl).1,
   (warmSkipAndForceRefresh (startFetching initialState) (FetchOutcome.success [])
      (FetchOutcome.success [])).2.1 rfl⟩

/-- C10: `startFetching` and `stopFetching` write only `should_fetch`
(true and false respectively) and leave both resource records — items,
updating and warmed flags of bridges and of serial ports — unchanged. -/
theorem startStopFetchingFrame (s : BridgetState) :
    ((startFetching s).should_fetch = true
      ∧ (startFetching s).available_bridges = s.available_bridges
      ∧ (startFetching s).available_serial_ports = s.available_serial_ports
      ∧ (startFetching s).updating_bridges = s.updating_bridges
      ∧ (startFetching s).updating_serial_ports = s.updating_serial_ports
      ∧ (startFetching s).prefetched_bridges = s.prefetched_bridges
      ∧ (startFetching s).prefeteched_serial_ports = s.prefeteched_serial_ports)
    ∧ ((stopFetching s).should_fetch = false
      ∧ (stopFetching s).available_bridges = s.available_bridges
      ∧ (stopFetching s).available_serial_ports = s.available_serial_ports
      ∧ (stopFetching s).updating_bridges = s.updating_bridges
      ∧ (stopFetching s).updating_serial_ports = s.updating_serial_ports
      ∧ (stopFetching s).prefetched_bridges = s.prefetched_bridges
      ∧ (stopFetching s).prefeteched_serial_ports = s.prefeteched_serial_ports) := by
  simp [startFetching, stopFetching]

/-- C8: the code contradicts the per-record isolation both the spec and
the mutation's own name intend — a successful serial-ports cycle from the
initial state flips the bridges record's `updating_bridges` field from
true to false, because `setAvailableSerialPorts` writes
`updating_bridges` instead of `updating_serial_ports`. -/
theorem serialCycleClobbersBridgesUpdating :
    initialState.updating_bridges = true
      ∧ (fetchAvailableSerialPorts initialState
          (FetchOutcome.success ["ttyUSB0"])).1.updating_bridges = false := by
  constructor
  · rfl
  · rfl

/-- C3: for every resource type, a cycle whose transport call fails with
the offline condition (the `backend_offline_error` sentinel) ends with
empty items, the warmed flag unchanged, and no notification pushed. -/
theorem offlineFailureSuppressed (s : BridgetState)
    (hb : bridgesGuardPasses s = true) (hp : serialPortsGuardPasses s = true) :
    ((fetchAvailableBridges s (FetchOutcome.failure backend_offline_error)).1.available_bridges = []
      ∧ (fetchAvailableBridges s (FetchOutcome.failure backend_offline_error)).1.prefetched_bridges
          = s.prefetched_bridges
      ∧ (fetchAvailableBridges s (FetchOutcome.failure backend_offline_error)).2 = [])
    ∧ ((fetchAvailableSerialPorts s
          (FetchOutcome.failure backend_offline_error)).1.available_serial_ports = []
      ∧ (fetchAvailableSerialPorts s
          (FetchOutcome.failure backend_offline_error)).1.prefeteched_serial_ports
          = s.prefeteched_serial_ports
      ∧ (fetchAvailableSerialPorts s (FetchOutcome.failure backend_offline_error)).2 = []) := by
  simp [fetchAvailableBridges, fetchAvailableSerialPorts, fetchAvailableBridgesSteps,
    fetchAvailableSerialPortsSteps, bridgesRequestPhase, serialPortsRequestPhase,
    bridgesResolutionPhase, serialPortsResolutionPhase, hb, hp, bridgesHandlerSteps,
    serialPortsHandlerSteps, errorIsBackendOfflineError, backend_offline_error, runSteps,
    applyMut, setAvailableBridges, setAvailableSerialPorts, setUpdatingBridges,
    setUpdatingSerialPorts]

/-- C3 witness: first cycles from the initial state failing with the
offline sentinel push no notification and leave the warmed flags false. -/
theorem offlineFailureSuppressed_witness :
    (fetchAvailableBridges initialState (FetchOutcome.failure backend_offline_error)).2 = []
      ∧ (fetchAvailableSerialPorts initialState
          (FetchOutcome.failure backend_offline_error)).2 = [] :=
  ⟨(offlineFailureSuppressed initialState rfl rfl).1.2.2,
   (offlineFailureSuppressed initialState rfl rfl).2.2.2⟩

/-- C4: for every resource type, a cycle whose transport call fails with
any non-offline failure ends with empty items and pushes exactly one
notification carrying the resource type's stable tag
(`BRIDGES_FETCH_FAIL` / `BRIDGET_SERIAL_PORTS_FETCH_FAIL`) and a message
embedding the underlying failure's message. -/
theorem nonOfflineFailureReported (s : BridgetState) (e : TransportError)
    (hk : e.kind ≠ ErrorKind.offline) (hw : WellFormedError e)
    (hb : bridgesGuardPasses s = true) (hp : serialPortsGuardPasses s = true) :
    ((fetchAvailableBridges s (FetchOutcome.failure e)).1.available_bridges = []
      ∧ (fetchAvailableBridges s (FetchOutcome.failure e)).2 =
          [{ service := bridget_service, type := "BRIDGES_FETCH_FAIL",
             message := "Could not fetch available bridges: " ++ e.message }])
    ∧ ((fetchAvailableSerialPorts s (FetchOutcome.failure e)).1.available_serial_ports = []
      ∧ (fetchAvailableSerialPorts s (FetchOutcome.failure e)).2 =
          [{ service := bridget_service, type := "BRIDGET_SERIAL_PORTS_FETCH_FAIL",
             message := "Could not fetch available serial ports: " ++ e.message }]) := by
  have hs := not_offline_kind_not_singleton e hk hw
  simp [fetchAvailableBridges, fetchAvailableSerialPorts, fetchAvailableBridgesSteps,
    fetchAvailableSerialPortsSteps, bridgesRequestPhase, serialPortsRequestPhase,
    bridgesResolutionPhase, serialPortsResolutionPhase, hb, hp, bridgesHandlerSteps,
    serialPortsHandlerSteps, hs, runSteps, applyMut, setAvailableBridges,
    setAvailableSerialPorts, setUpdatingBridges, setUpdatingSerialPorts]

/-- C4 witness: a timeout failure on the first bridges cycle yields
exactly the one tagged notification with the embedded message. -/
theorem nonOfflineFailureReported_witness :
    (fetchAvailableBridges initialState (FetchOutcome.failure
        { kind := ErrorKind.timeout, isOfflineSingleton := false,
          message := "timeout of 10000ms exceeded" })).2 =
      [{ service := bridget_service, type := "BRIDGES_FETCH_FAIL",
         message := "Could not fetch available bridges: timeout of 10000ms exceeded" }] :=
  (nonOfflineFailureReported initialState
    { kind := ErrorKind.timeout, isOfflineSingleton := false,
      message := "timeout of 10000ms exceeded" }
    (by decide) (by decide) rfl rfl).1.2

/-- C5 counterexample: the first bridges cycle from the initial state
proceeds past the skip check and issues the transport call (one call
observed), yet its step trace contains no step setting an updating flag to
true — there is no `markUpdating` step before the request, contrary to the
claim. -/
theorem cycleNeverMarksUpdating_counterexample :
    transportCalls (fetchAvailableBridgesSteps initialState (FetchOutcome.success [])) = 1
      ∧ (fetchAvailableBridgesSteps initialState
          (FetchOutcome.success [])).countP Step.setsUpdatingTrue = 0 := by
  constructor
  · rfl
  · rfl

theorem bridgesHandlerSteps_no_mark (o : FetchOutcome (List Bridge)) :
    (bridgesHandlerSteps o).countP Step.setsUpdatingTrue = 0 := by
  rcases o with d | e
  · rfl
  · unfold bridgesHandlerSteps
    cases h : errorIsBackendOfflineError e <;>
      simp only [h, Bool.false_eq_true, if_false, if_true] <;> rfl

theorem serialPortsHandlerSteps_no_mark (o : FetchOutcome (List String)) :
    (serialPortsHandlerSteps o).countP Step.setsUpdatingTrue = 0 := by
  rcases o with d | e
  · rfl
  · unfold serialPortsHandlerSteps
    cases h : errorIsBackendOfflineError e <;>
      simp only [h, Bool.false_eq_true, if_false, if_true] <;> rfl

/-- C5 as amended: no cycle of either resource type ever sets an updating
flag to true — the updating flags are true only in the record's initial
transient state — and every cycle that proceeds past the skip check ends
with its own updating flag false via the `finally` step. -/
theorem cycleNeverMarksUpdating (s : BridgetState)
    (ob : FetchOutcome (List Bridge)) (op : FetchOutcome (List String)) :
    ((fetchAvailableBridgesSteps s ob).countP Step.setsUpdatingTrue = 0
      ∧ (bridgesGuardPasses s = true →
          (fetchAvailableBridges s ob).1.updating_bridges = false))
    ∧ ((fetchAvailableSerialPortsSteps s op).countP Step.setsUpdatingTrue = 0
      ∧ (serialPortsGuardPasses s = true →
          (fetchAvailableSerialPorts s op).1.updating_serial_ports = false)) := by
  refine ⟨⟨?_, fun hg => ?_⟩, ⟨?_, fun hg => ?_⟩⟩
  · rw [fetchAvailableBridgesSteps, List.countP_append]
    unfold bridgesRequestPhase bridgesResolutionPhase
    cases hg : bridgesGuardPasses s
    · rfl
    · rw [if_pos rfl, if_pos rfl, bridgesHandlerSteps_no_mark]
      rfl
  · rcases ob with d | e
    · simp [fetchAvailableBridges, fetchAvailableBridgesSteps, bridgesRequestPhase,
        bridgesResolutionPhase, hg, bridgesHandlerSteps, runSteps, applyMut,
        setAvailableBridges, setPrefetchedBridges, setUpdatingBridges]
    · cases he : errorIsBackendOfflineError e <;>
        simp [fetchAvailableBridges, fetchAvailableBridgesSteps, bridgesRequestPhase,
          bridgesResolutionPhase, hg, bridgesHandlerSteps, he, runSteps, applyMut,
          setAvailableBridges, setUpdatingBridges]
  · rw [fetchAvailableSerialPortsSteps, List.countP_append]
    unfold serialPortsRequestPhase serialPortsResolutionPhase
    cases hg : serialPortsGuardPasses s
    · rfl
    · rw [if_pos rfl, if_pos rfl, serialPortsHandlerSteps_no_mark]
      rfl
  · rcases op with d | e
    · simp [fetchAvailableSerialPorts, fetchAvailableSerialPortsSteps, serialPortsRequestPhase,
        serialPortsResolutionPhase, hg, serialPortsHandlerSteps, runSteps, applyMut,
        setAvailableSerialPorts, setPrefetchedSerialPorts, setUpdatingSerialPorts]
    · cases he : errorIsBackendOfflineError e <;>
        simp [fetchAvailableSerialPorts, fetchAvailableSerialPortsSteps, serialPortsRequestPhase,
          serialPortsResolutionPhase, hg, serialPortsHandlerSteps, he, runSteps, applyMut,
          setAvailableSerialPorts, setUpdatingSerialPorts]

/-- C5 witness: the first bridges cycle from the initial state ends with
`updating_bridges` false. -/
theorem cycleNeverMarksUpdating_witness :
    (fetchAvailableBridges initialState (FetchOutcome.success [])).1.updating_bridges = false :=
  (cycleNeverMarksUpdating initialState (FetchOutcome.success [])
    (FetchOutcome.success [])).1.2 rfl

/-- C6 counterexample: two bridges ticks fired from the initial state
before the first request resolves both pass the skip check, so two
transport calls are observed, not the claimed single call. -/
theorem overlappingTicksSecondDropped_counterexample :
    transportCalls (overlappedBridgesTicksSteps initialState
        (FetchOutcome.success []) (FetchOutcome.success [])) = 2 := by
  rfl

/-- C6 as amended: there is no in-flight guard — overlapping ticks are
dropped only by the warmed/force-refresh skip check, evaluated against
the state before either request resolves: if that check passes, both
overlapping ticks issue a transport call (two observed); if it fails,
neither does. -/
theorem overlappedTicksTransportCount (s : BridgetState)
    (ob1 ob2 : FetchOutcome (List Bridge)) (op1 op2 : FetchOutcome (List String)) :
    transportCalls (overlappedBridgesTicksSteps s ob1 ob2)
        = (if bridgesGuardPasses s then 2 else 0)
      ∧ transportCalls (overlappedSerialPortsTicksSteps s op1 op2)
        = (if serialPortsGuardPasses s then 2 else 0) := by
  constructor
  · unfold overlappedBridgesTicksSteps bridgesRequestPhase bridgesResolutionPhase
    cases hg : bridgesGuardPasses s
    · simp [transportCalls, List.countP, List.countP.go]
    · simp only [if_true, transportCalls_append, bridgesHandlerSteps_no_transport]
      rfl
  · unfold overlappedSerialPortsTicksSteps serialPortsRequestPhase serialPortsResolutionPhase
    cases hg : serialPortsGuardPasses s
    · simp [transportCalls, List.countP, List.countP.go]
    · simp only [if_true, transportCalls_append, serialPortsHandlerSteps_no_transport]
      rfl

/-- C7 counterexample: an offline-kind failure that is not
reference-identical to the sentinel (wrapped or cloned by an intermediate
layer) is classified `Other` by the source's identity test even though
classification by kind would make it `Offline`, and the cycle reports it
with a notification instead of suppressing it. -/
theorem clonedOfflineReported_counterexample :
    classify (TransportError.mk ErrorKind.offline false "backend is offline")
        = Classification.Other
      ∧ classifyByKind (TransportError.mk ErrorKind.offline false "backend is offline")
        = Classification.Offline
      ∧ (fetchAvailableBridges initialState (FetchOutcome.failure
          (TransportError.mk ErrorKind.offline false "backend is offline"))).2.length = 1 := by
  refine ⟨rfl, rfl, rfl⟩

/-- C7 as amended: the classifier works by reference identity, not kind —
a failure is classified `Offline` exactly when it is the identical
`backend_offline_error` instance, and a cycle suppresses its notification
exactly in that case; any other failure, offline-kind clones included, is
classified `Other` and reported. -/
theorem classificationByIdentity (s : BridgetState) (e : TransportError)
    (hb : bridgesGuardPasses s = true) (hp : serialPortsGuardPasses s = true) :
    (classify e = Classification.Offline ↔ errorIsBackendOfflineError e = true)
      ∧ ((fetchAvailableBridges s (FetchOutcome.failure e)).2 = []
          ↔ errorIsBackendOfflineError e = true)
      ∧ ((fetchAvailableSerialPorts s (FetchOutcome.failure e)).2 = []
          ↔ errorIsBackendOfflineError e = true) := by
  cases he : errorIsBackendOfflineError e <;>
    simp [classify, he, fetchAvailableBridges, fetchAvailableSerialPorts,
      fetchAvailableBridgesSteps, fetchAvailableSerialPortsSteps, bridgesRequestPhase,
      serialPortsRequestPhase, bridgesResolutionPhase, serialPortsResolutionPhase, hb, hp,
      bridgesHandlerSteps, serialPortsHandlerSteps, runSteps, applyMut]

/-- C7 witness: at the sentinel itself, the first bridges cycle pushes no
notification. -/
theorem classificationByIdentity_witness :
    (fetchAvailableBridges initialState (FetchOutcome.failure backend_offline_error)).2 = [] :=
  (classificationByIdentity initialState backend_offline_error rfl rfl).2.1.mpr rfl

theorem runCycleEvent_warmed_mono (s : BridgetState) (e : CycleEvent) :
    (s.prefetched_bridges = true → (runCycleEvent s e).prefetched_bridges = true)
      ∧ (s.prefeteched_serial_ports = true →
          (runCycleEvent s e).prefeteched_serial_ports = true) := by
  rcases e with o | o
  · cases hg : bridgesGuardPasses s
    · simp [runCycleEvent, fetchAvailableBridges, fetchAvailableBridgesSteps,
        bridgesRequestPhase, bridgesResolutionPhase, hg, runSteps]
    · rcases o with d | e'
      · simp [runCycleEvent, fetchAvailableBridges, fetchAvailableBridgesSteps,
          bridgesRequestPhase, bridgesResolutionPhase, hg, bridgesHandlerSteps, runSteps,
          applyMut, setAvailableBridges, setPrefetchedBridges, setUpdatingBridges]
      · cases he : errorIsBackendOfflineError e' <;>
          simp [runCycleEvent, fetchAvailableBridges, fetchAvailableBridgesSteps,
            bridgesRequestPhase, bridgesResolutionPhase, hg, bridgesHandlerSteps, he, runSteps,
            applyMut, setAvailableBridges, setUpdatingBridges]
  · cases hg : serialPortsGuardPasses s
    · simp [runCycleEvent, fetchAvailableSerialPorts, fetchAvailableSerialPortsSteps,
        serialPortsRequestPhase, serialPortsResolutionPhase, hg, runSteps]
    · rcases o with d | e'
      · simp [runCycleEvent, fetchAvailableSerialPorts, fetchAvailableSerialPortsSteps,
          serialPortsRequestPhase, serialPortsResolutionPhase, hg, serialPortsHandlerSteps,
          runSteps, applyMut, setAvailableSerialPorts, setPrefetchedSerialPorts,
          setUpdatingSerialPorts]
      · cases he : errorIsBackendOfflineError e' <;>
          simp [runCycleEvent, fetchAvailableSerialPorts, fetchAvailableSerialPortsSteps,
            serialPortsRequestPhase, serialPortsResolutionPhase, hg, serialPortsHandlerSteps,
            he, runSteps, applyMut, setAvailableSerialPorts, setUpdatingSerialPorts]

/-- C9: the warmed (prefetched) flag of each resource type is monotonic
across any sequence of sync cycles with any outcomes: once true, it stays
true — no later cycle, failures of either kind included, resets it. -/
theorem warmedMonotonic (es : List CycleEvent) (s : BridgetState) :
    (s.prefetched_bridges = true → (runCycleEvents s es).prefetched_bridges = true)
      ∧ (s.prefeteched_serial_ports = true →
          (runCycleEvents s es).prefeteched_serial_ports = true) := by
  induction es generalizing s with
  | nil => exact ⟨fun h => h, fun h => h⟩
  | cons e rest ih =>
      refine ⟨fun h => ?_, fun h => ?_⟩
      · exact (ih (runCycleEvent s e)).1 ((runCycleEvent_warmed_mono s e).1 h)
      · exact (ih (runCycleEvent s e)).2 ((runCycleEvent_warmed_mono s e).2 h)

/-- C9 witness: a warmed bridges record stays warmed across a subsequent
offline failure cycle and a non-offline failure cycle. -/
theorem warmedMonotonic_witness :
    (runCycleEvents { initialState with prefetched_bridges := true }
        [CycleEvent.bridges (FetchOutcome.failure backend_offline_error),
         CycleEvent.bridges (FetchOutcome.failure
           { kind := ErrorKind.timeout, isOfflineSingleton := false,
             message := "timeout of 10000ms exceeded" })]).prefetched_bridges = true :=
  (warmedMonotonic
    [CycleEvent.bridges (FetchOutcome.failure backend_offline_error),
     CycleEvent.bridges (FetchOutcome.failure
       { kind := ErrorKind.timeout, isOfflineSingleton := false,
         message := "timeout of 10000ms exceeded" })]
    { initialState with prefetched_bridges := true }).1 rfl

end Bridget
